import Mathlib

/-!
Verification development for the ror-multigame-autosplitter repository.

The definitions below are a shallow embedding of the Rust sources:
* `src/autosplitter.rs` — the timer coordinator (`AutoSplitter::update_loop`),
  its settings and runtime state;
* `src/game/risk_of_rain_returns.rs` — the signature based version resolver
  (`version_details`), including the real version table;
* `src/game.rs` — `platform_process_name` and the configured process names.

External timer commands (`asr::timer`) are modelled as an emitted command
list; the external timer lifecycle (`asr::timer::TimerState`) is modelled as
an enumeration, with one extra constructor standing for any lifecycle value
not matched by the source's `match` arms.  The `todo!` panic in the source is
modelled by returning `none` from the tick function.
-/

namespace RorAutosplitter

/-- The external timer lifecycle.  `unrecognized` stands for any value other
than the five states the source matches explicitly (the source's `_ =>` arm
with `todo!`). -/
inductive TimerLifecycle where
  | notRunning
  | running
  | paused
  | ended
  | unknown
  | unrecognized
deriving DecidableEq, Repr, Fintype

/-- Commands the coordinator can issue to the external timer
(`asr::timer::start/split/reset/pause_game_time/resume_game_time` and
`set_game_time(Duration::ZERO)` in `initialize_game_time_workaround`). -/
inductive TimerCommand where
  | start
  | split
  | reset
  | pauseGameTime
  | resumeGameTime
  | setGameTimeZero
deriving DecidableEq, Repr, Fintype

/-- `AutoSplitterSettings` from `src/autosplitter.rs` (the three booleans read
each tick). -/
structure AutoSplitterSettings where
  start : Bool
  split : Bool
  reset : Bool
deriving DecidableEq, Repr, Fintype

/-- `AutoSplitterState` from `src/autosplitter.rs`. -/
structure AutoSplitterState where
  switching_games : Bool
  autoreset_lockout : Bool
  was_loading : Bool
deriving DecidableEq, Repr, Fintype

/-- `AutoSplitterState::default()` — all fields `false`. -/
def AutoSplitterState.defaultState : AutoSplitterState :=
  { switching_games := false, autoreset_lockout := false, was_loading := false }

/-- One tick's worth of answers from an attached game adapter (the
`GameAutoSplitter` trait predicates `start/reset/split/completed/is_loading`
as observed by `update_loop` during a single tick). -/
structure GameAdapter where
  start : Bool
  reset : Bool
  split : Bool
  completed : Bool
  is_loading : Option Bool
deriving DecidableEq, Repr, Fintype

/-- `AutoSplitter::should_start`. -/
def should_start (g : GameAdapter) : Bool := g.start

/-- `AutoSplitter::should_reset`. -/
def should_reset (st : AutoSplitterState) (g : GameAdapter) : Bool :=
  !st.autoreset_lockout && g.reset

/-- `AutoSplitter::should_split`. -/
def should_split (g : GameAdapter) : Bool := g.split

/-- `AutoSplitter::game_completed`. -/
def game_completed (g : GameAdapter) : Bool := g.completed

/-- `AutoSplitter::is_loading`. -/
def is_loading (st : AutoSplitterState) (g : GameAdapter) : Bool :=
  st.switching_games || g.is_loading.getD st.was_loading

/-- The splitting block of the `Running | Paused` arm of `update_loop`
(`if !self.state.switching_games { ... }`).  Returns the updated state and
the commands it emits, in order. -/
def splitting_step (settings : AutoSplitterSettings) (st : AutoSplitterState)
    (g : GameAdapter) : AutoSplitterState × List TimerCommand :=
  if !st.switching_games then
    if game_completed g then
      ({ st with autoreset_lockout := true, switching_games := true },
        [TimerCommand.split])
    else if should_split g then
      ({ st with autoreset_lockout := true },
        if settings.split then [TimerCommand.split] else [])
    else (st, [])
  else (st, [])

/-- The game-swap-completion block of the `Running | Paused` arm of
`update_loop` (`if self.state.switching_games && Self::should_start(...)`). -/
def swap_step (st : AutoSplitterState) (g : GameAdapter) : AutoSplitterState :=
  if st.switching_games && should_start g then
    { st with switching_games := false }
  else st

/-- The load-removal block of the `Running | Paused` arm of `update_loop`
(`if self.is_loading(...) { ... } else { ... }`). -/
def loading_step (st : AutoSplitterState) (g : GameAdapter) :
    AutoSplitterState × List TimerCommand :=
  if is_loading st g then
    if !st.was_loading then
      ({ st with was_loading := true }, [TimerCommand.pauseGameTime])
    else (st, [])
  else
    if st.was_loading then
      ({ st with was_loading := false }, [TimerCommand.resumeGameTime])
    else (st, [])

/-- Everything in the `Running | Paused` arm of `update_loop` after the reset
block: splitting logic, swap completion, load removal, executed in source
order on the threaded state. -/
def running_tick_rest (settings : AutoSplitterSettings) (st : AutoSplitterState)
    (g : GameAdapter) : AutoSplitterState × List TimerCommand :=
  let p1 := splitting_step settings st g
  let st2 := swap_step p1.1 g
  let p3 := loading_step st2 g
  (p3.1, p1.2 ++ p3.2)

/-- The whole `Running | Paused` arm of `update_loop` with an adapter
attached: the reset block (which, when it fires, resets the state to defaults
and then falls through to the remaining blocks, exactly as the source does),
followed by `running_tick_rest`. -/
def running_tick (settings : AutoSplitterSettings) (st : AutoSplitterState)
    (g : GameAdapter) : AutoSplitterState × List TimerCommand :=
  if should_reset st g && settings.reset then
    let p := running_tick_rest settings AutoSplitterState.defaultState g
    (p.1, TimerCommand.reset :: p.2)
  else
    running_tick_rest settings st g

/-- `AutoSplitter::update_loop`.  Returns `none` exactly when the source hits
`todo!("New timer states have been added...")`; otherwise returns the new
runtime state together with the list of timer commands issued during the
tick, in emission order. -/
def update_loop (settings : AutoSplitterSettings) (st : AutoSplitterState)
    (lifecycle : TimerLifecycle) (g : Option GameAdapter) :
    Option (AutoSplitterState × List TimerCommand) :=
  match g with
  | none =>
    match lifecycle with
    | TimerLifecycle.running | TimerLifecycle.paused =>
      if st.switching_games && !st.was_loading then
        some ({ st with was_loading := true }, [TimerCommand.pauseGameTime])
      else
        some (st, [])
    | TimerLifecycle.ended => some (AutoSplitterState.defaultState, [])
    | _ => some (st, [])
  | some gs =>
    match lifecycle with
    | TimerLifecycle.notRunning =>
      if should_start gs then
        if settings.start then
          some (AutoSplitterState.defaultState,
            [TimerCommand.start, TimerCommand.setGameTimeZero])
        else
          some (AutoSplitterState.defaultState, [])
      else
        some (st, [])
    | TimerLifecycle.running | TimerLifecycle.paused =>
      some (running_tick settings st gs)
    | TimerLifecycle.ended => some (AutoSplitterState.defaultState, [])
    | TimerLifecycle.unknown => some (st, [])
    | TimerLifecycle.unrecognized => none

/-- Process memory, as seen by the read primitive: a partial map from
addresses to byte values.  An address that is not mapped makes any read
covering it fail. -/
def Mem : Type := Nat → Option Nat

/-- `Process::read_into_buf(addr, buf)` with `buf.len() = len`: succeeds and
returns the `len` bytes at `addr, addr+1, ...` exactly when every one of them
is mapped; otherwise the read fails. -/
def readBytes (mem : Mem) (addr : Nat) : Nat → Option (List Nat)
  | 0 => some []
  | n + 1 =>
    match mem addr, readBytes mem (addr + 1) n with
    | some b, some rest => some (b :: rest)
    | _, _ => none

/-- The bytes of a string (all strings in the version table are ASCII, so the
character codes are the UTF-8 bytes of `expected.as_bytes()`). -/
def strBytes (s : String) : List Nat := s.toList.map Char.toNat

/-- `version_details::BuildString`. -/
structure BuildString where
  address : Nat
  expected : String
deriving DecidableEq, Repr

/-- `version_details::GameVarOffsets`. -/
structure GameVarOffsets where
  room : List Nat
  in_game_time : List Nat
deriving DecidableEq, Repr

/-- `version_details::GameVersionData` (without the debug-only `version`
field, which is compiled out unless `debug_output` is set). -/
structure GameVersionData where
  build_string : BuildString
  offsets : GameVarOffsets
deriving DecidableEq, Repr

/-- `SupportedGameVersions::VERSION_DATA`: the v1.0.3 entry. -/
def versionData_1_0_3 : GameVersionData :=
  { build_string :=
      { address := 0x1A7C700
        expected := "BUILD_ID: 234, BUILD_BRANCH: PATCH_1_0_3, VERSION_STRING: 1.0.3" }
    offsets :=
      { room := [0x2127B18]
        in_game_time :=
          [0x1F01C98, 0x10, 0x1CF0, 0x1B0, 0x48, 0x10, 0x0, 0x0, 0x48, 0x10, 0x50, 0x0] } }

/-- `SupportedGameVersions::VERSION_DATA`: the v1.0.4 entry. -/
def versionData_1_0_4 : GameVersionData :=
  { build_string :=
      { address := 0x1ABCB10
        expected := "BUILD_ID: 242, BUILD_BRANCH: the-mouse-aim-branch, VERSION_STRING: 1.0.4" }
    offsets :=
      { room := [0x2172888]
        in_game_time :=
          [0x01F5F300, 0x170, 0x10, 0x90, 0x0, 0x48, 0x10, 0x60, 0x0, 0x48, 0x10, 0x1B0, 0x0] } }

/-- `SupportedGameVersions::VERSION_DATA`: the v1.0.5 entry. -/
def versionData_1_0_5 : GameVersionData :=
  { build_string :=
      { address := 0x1ABC988
        expected := "BUILD_ID: 248, BUILD_BRANCH: master, VERSION_STRING: 1.0.4" }
    offsets :=
      { room := [0x21729D8]
        in_game_time :=
          [0x01F5F450, 0x120, 0x10, 0x90, 0x0, 0x48, 0x10, 0xd0, 0x0, 0x48, 0x10, 0x2e0, 0x0] } }

/-- `SupportedGameVersions::VERSION_DATA`, in table order. -/
def VERSION_DATA : List GameVersionData :=
  [versionData_1_0_3, versionData_1_0_4, versionData_1_0_5]

/-- `SupportedGameVersions::max_len_all()`: the maxima, over the version
table, of the build-string length, the room chain length and the
in-game-time chain length. -/
def max_len_all : Nat × Nat × Nat :=
  VERSION_DATA.foldl
    (fun acc gv =>
      (max acc.1 (strBytes gv.build_string.expected).length,
       max acc.2.1 gv.offsets.room.length,
       max acc.2.2 gv.offsets.in_game_time.length))
    (0, 0, 0)

/-- `SupportedGameVersions::strbuf_len()`. -/
def strbuf_len : Nat := max_len_all.1

/-- `SupportedGameVersions::room_len()`. -/
def room_len : Nat := max_len_all.2.1

/-- `SupportedGameVersions::igt_len()`. -/
def igt_len : Nat := max_len_all.2.2

/-- A `DeepPointer` (of whatever fixed capacity) bound to a base address with
a concrete offset path, as built by `DeepPointer::new_64bit(module_offset,
path)`. -/
structure BoundPointer where
  base : Nat
  path : List Nat
deriving DecidableEq, Repr

/-- `version_details::check_build_string`: read `strbuf_len` bytes (the whole
fixed-size buffer) at `module_offset + build_string.address`; on success,
compare the first `expected.len()` bytes of the buffer byte-for-byte against
the expected string; a failed read means no match. -/
def check_build_string (mem : Mem) (module_offset : Nat) (bs : BuildString) : Bool :=
  match readBytes mem (module_offset + bs.address) strbuf_len with
  | some buf =>
    ((buf.take (strBytes bs.expected).length).zip (strBytes bs.expected)).all
      (fun p => p.1 == p.2)
  | none => false

/-- The `for gv in SupportedGameVersions::data()` loop of
`find_gamevar_pointers`, over an arbitrary remaining table. -/
def find_gamevar_pointers_go (mem : Mem) (module_offset : Nat) :
    List GameVersionData → Option (BoundPointer × BoundPointer)
  | [] => none
  | gv :: rest =>
    if check_build_string mem module_offset gv.build_string then
      some ({ base := module_offset, path := gv.offsets.room },
            { base := module_offset, path := gv.offsets.in_game_time })
    else
      find_gamevar_pointers_go mem module_offset rest

/-- `version_details::find_gamevar_pointers`: first profile in table order
whose build string checks out wins; `none` when no profile checks out. -/
def find_gamevar_pointers (mem : Mem) (module_offset : Nat) :
    Option (BoundPointer × BoundPointer) :=
  find_gamevar_pointers_go mem module_offset VERSION_DATA

/-- Modelled from the spec (the signature check as §4.2 words it, for
comparison with `check_build_string`): read exactly `signatureBytes.length`
bytes from `moduleBase + signatureAddress` and compare byte-for-byte; a
failed read means no match.  The corresponding source code reads a
`strbuf_len`-sized buffer instead. -/
def check_build_string_specWords (mem : Mem) (module_offset : Nat)
    (bs : BuildString) : Bool :=
  match readBytes mem (module_offset + bs.address) (strBytes bs.expected).length with
  | some buf => (buf.zip (strBytes bs.expected)).all (fun p => p.1 == p.2)
  | none => false

/-- Modelled from the spec (§4.1, the Edge-Detecting Sample; the
corresponding code is `asr::watcher::Watcher`, a dependency whose source is
not part of this repository): optional `previous` and `latest` observed
values. -/
structure Sample (T : Type) where
  previous : Option T
  latest : Option T
deriving DecidableEq, Repr

/-- Modelled from the spec (§4.1): `update(newValue)`.  An absent value
invalidates the pair, keeping the old `latest` in `previous`; a present value
re-establishes the pair with `previous == latest` when no valid pair existed,
and shifts `latest` into `previous` otherwise. -/
def Sample.update {T : Type} (s : Sample T) (newValue : Option T) : Sample T :=
  match newValue with
  | none => { previous := s.latest, latest := none }
  | some v =>
    match s.previous, s.latest with
    | some _, some l => { previous := some l, latest := some v }
    | _, _ => { previous := some v, latest := some v }

/-- Modelled from the spec (§4.1): `changed()` is `previous ≠ latest` over a
valid pair, `false` on an invalid pair. -/
def Sample.changed {T : Type} [DecidableEq T] (s : Sample T) : Bool :=
  match s.previous, s.latest with
  | some p, some l => decide (p ≠ l)
  | _, _ => false

/-- `game::platform_process_name`, specialised by platform: on Linux the
source returns `&process_name[0..15]`, which panics (modelled `none`) when
the name is shorter than 15 bytes; on other platforms it returns the name
unchanged.  All configured names are ASCII, so byte indices and character
indices agree. -/
def platform_process_name (is_linux : Bool) (process_name : String) :
    Option String :=
  if is_linux then
    if 15 ≤ process_name.length then some (process_name.take 15) else none
  else
    some process_name

/-- Every process name configured for the three supported games:
`risk_of_rain::TARGET_PROCESS_NAMES`, `risk_of_rain_2::TARGET_PROCESS_NAME`,
`risk_of_rain_returns::TARGET_PROCESS_NAME`, in the attach order of
`lib.rs`. -/
def all_target_process_names : List String :=
  ["ROR_GMS_controller.exe", "Risk of Rain.exe",
   "Risk of Rain 2.exe", "Risk of Rain Returns.exe"]

/-- The pair of bound pointers `find_gamevar_pointers` builds for a matched
profile (`RoomPointer::new_64bit(*module_offset, gv.offsets.room)` and
`IGTPointer::new_64bit(*module_offset, gv.offsets.in_game_time)`). -/
def bindGameVars (module_offset : Nat) (gv : GameVersionData) :
    BoundPointer × BoundPointer :=
  ({ base := module_offset, path := gv.offsets.room },
   { base := module_offset, path := gv.offsets.in_game_time })

/-- The byte sequence of the v1.0.3 build string (63 bytes). -/
def sig103 : List Nat := strBytes versionData_1_0_3.build_string.expected

/-- The byte sequence of the v1.0.4 build string (72 bytes, the longest in
the table). -/
def sig104 : List Nat := strBytes versionData_1_0_4.build_string.expected

/-- A process memory mapping exactly the 63 bytes of the v1.0.3 build string
at that profile's signature address (with module base 0); the byte right
after the signature is unmapped. -/
def memPartial103 : Mem := fun a =>
  if 0x1A7C700 ≤ a ∧ a < 0x1A7C700 + 63 then some (sig103.getD (a - 0x1A7C700) 0)
  else none

/-- A process memory mapping the 72 bytes of the v1.0.4 build string at that
profile's signature address (with module base 0) and nothing else. -/
def memOnly104 : Mem := fun a =>
  if 0x1ABCB10 ≤ a ∧ a < 0x1ABCB10 + 72 then some (sig104.getD (a - 0x1ABCB10) 0)
  else none

/-- A process memory with no byte mapped: every read fails. -/
def memNone : Mem := fun _ => none

/-- The inputs one tick of `update_loop` consumes: the settings as read that
tick, the external timer lifecycle, and the attached adapter (if any) with
its predicate answers for the tick. -/
structure TickInput where
  settings : AutoSplitterSettings
  lifecycle : TimerLifecycle
  adapter : Option GameAdapter

/-- Boolean check that a single tick from a given state neither emits a reset
command nor drops the autoreset lockout (other than by resetting the whole
runtime state to defaults). -/
def tick_keeps_lockout (settings : AutoSplitterSettings) (st : AutoSplitterState)
    (lc : TimerLifecycle) (g : Option GameAdapter) : Bool :=
  match update_loop settings st lc g with
  | none => true
  | some (st', cmds) =>
    !(decide (TimerCommand.reset ∈ cmds)) &&
      (decide (st' = AutoSplitterState.defaultState) || st'.autoreset_lockout)

/-- Over a whole sequence of future tick inputs: no tick emits a reset
command, up to (and not including) the first tick that resets the runtime
state back to defaults; a fatal tick (`update_loop = none`) terminates the
coordinator, discharging the property for the remaining inputs. -/
def noResetUntilDefault : AutoSplitterState → List TickInput → Prop
  | _, [] => True
  | st, i :: rest =>
    ∀ st' cmds, update_loop i.settings st i.lifecycle i.adapter = some (st', cmds) →
      TimerCommand.reset ∉ cmds ∧
        (st' = AutoSplitterState.defaultState ∨ noResetUntilDefault st' rest)

/-- A successful `readBytes` returns exactly as many bytes as requested. -/
theorem readBytes_length (mem : Mem) :
    ∀ (len : Nat) (addr : Nat) (buf : List Nat),
      readBytes mem addr len = some buf → buf.length = len := by
  intro len
  induction len with
  | zero =>
    intro addr buf h
    simp only [readBytes, Option.some.injEq] at h
    simp [← h]
  | succ n ih =>
    intro addr buf h
    unfold readBytes at h
    cases hm : mem addr with
    | none => rw [hm] at h; exact absurd h (by simp)
    | some b =>
      cases hr : readBytes mem (addr + 1) n with
      | none => rw [hm, hr] at h; exact absurd h (by simp)
      | some rest =>
        rw [hm, hr] at h
        simp only [Option.some.injEq] at h
        have := ih (addr + 1) rest hr
        simp [← h, this]

/-- The source's byte-for-byte comparison (`zip` + `all`) over two lists of
equal length is list equality. -/
theorem zip_all_eq : ∀ (a b : List Nat), a.length = b.length →
    ((((a.zip b).all fun p => p.1 == p.2) = true) ↔ a = b) := by
  intro a
  induction a with
  | nil =>
    intro b h
    cases b with
    | nil => simp
    | cons y ys => simp at h
  | cons x xs ih =>
    intro b h
    cases b with
    | nil => simp at h
    | cons y ys =>
      have h2 : xs.length = ys.length := by
        simpa using h
      simp [List.all_cons, ih ys h2, beq_iff_eq, List.cons.injEq]

/-- The resolver loop returns `none` when no entry of the remaining table
passes the signature check. -/
theorem find_go_none (mem : Mem) (module_offset : Nat) :
    ∀ table : List GameVersionData,
      (∀ gv ∈ table, check_build_string mem module_offset gv.build_string = false) →
      find_gamevar_pointers_go mem module_offset table = none := by
  intro table
  induction table with
  | nil => intro _; rfl
  | cons gv rest ih =>
    intro h
    have h0 : check_build_string mem module_offset gv.build_string = false :=
      h gv (by simp)
    simp only [find_gamevar_pointers_go, h0, Bool.false_eq_true, if_false]
    exact ih fun gv2 hm => h gv2 (by simp [hm])

/-- The resolver loop returns the bound pointers of the entry at the first
index whose signature check passes, given that every earlier entry fails. -/
theorem find_go_first (mem : Mem) (module_offset : Nat) :
    ∀ (table : List GameVersionData) (i : Nat) (h : i < table.length),
      check_build_string mem module_offset (table.get ⟨i, h⟩).build_string = true →
      (∀ (j : Nat) (hj : j < i),
        check_build_string mem module_offset
          (table.get ⟨j, Nat.lt_trans hj h⟩).build_string = false) →
      find_gamevar_pointers_go mem module_offset table =
        some (bindGameVars module_offset (table.get ⟨i, h⟩)) := by
  intro table
  induction table with
  | nil => intro i h; exact absurd h (Nat.not_lt_zero i)
  | cons gv rest ih =>
    intro i h hc hprev
    cases i with
    | zero =>
      simp only [List.get] at hc
      simp [find_gamevar_pointers_go, hc, bindGameVars, List.get]
    | succ i =>
      have h0 : check_build_string mem module_offset gv.build_string = false :=
        hprev 0 (Nat.succ_pos i)
      simp only [find_gamevar_pointers_go, h0, Bool.false_eq_true, if_false]
      exact ih i (Nat.lt_of_succ_lt_succ h) hc
        (fun j hj => hprev (j + 1) (Nat.succ_lt_succ hj))

/-- With the autoreset lockout armed, a single tick never emits a reset
command and either resets the whole runtime state to defaults or keeps the
lockout armed. -/
theorem tick_keeps_lockout_true :
    ∀ (settings : AutoSplitterSettings) (st : AutoSplitterState)
      (lc : TimerLifecycle) (g : Option GameAdapter),
      st.autoreset_lockout = true →
      tick_keeps_lockout settings st lc g = true := by
  decide

/-- With the autoreset lockout armed, no future tick emits a reset command
until the runtime state is reset to defaults. -/
theorem noReset_of_lockout :
    ∀ (inputs : List TickInput) (st : AutoSplitterState),
      st.autoreset_lockout = true → noResetUntilDefault st inputs := by
  intro inputs
  induction inputs with
  | nil => intro st _; exact trivial
  | cons i rest ih =>
    intro st h st' cmds he
    have hb := tick_keeps_lockout_true i.settings st i.lifecycle i.adapter h
    unfold tick_keeps_lockout at hb
    rw [he] at hb
    simp only [Bool.and_eq_true, Bool.not_eq_true', decide_eq_false_iff_not,
      Bool.or_eq_true, decide_eq_true_eq] at hb
    refine ⟨hb.1, ?_⟩
    rcases hb.2 with hd | hl
    · exact Or.inl hd
    · exact Or.inr (ih st' hl)

/-- Claim C1 (counterexample): with an adapter attached, lifecycle Running,
the reset condition true, the lockout clear and resets allowed, the tick
commands the reset and resets the runtime state — but it does NOT skip the
remaining steps: on the freshly reset state the completion check fires a
split and the load-freeze step fires a pause-game-time command in the very
same tick, so two further timer commands follow the reset. -/
theorem C1_cex :
    should_reset AutoSplitterState.defaultState
      { start := false, reset := true, split := false, completed := true,
        is_loading := none } = true ∧
    update_loop { start := true, split := true, reset := true }
      AutoSplitterState.defaultState TimerLifecycle.running
      (some { start := false, reset := true, split := false, completed := true,
              is_loading := none }) =
      some ({ switching_games := true, autoreset_lockout := true,
              was_loading := true },
        [TimerCommand.reset, TimerCommand.split, TimerCommand.pauseGameTime]) := by
  decide

/-- Claim C1 (amended): for every tick with an adapter attached and lifecycle
Running or Paused, if the reset condition holds, the lockout is clear and
resets are allowed, the Coordinator commands an external reset and resets the
runtime state to defaults, and then CONTINUES the tick: the split/completion,
handoff-completion and load-freeze/resume steps still run in the same tick on
the freshly reset state (and may emit further timer commands). -/
theorem C1_reset_resets_then_continues :
    ∀ (settings : AutoSplitterSettings) (st : AutoSplitterState)
      (gs : GameAdapter) (lc : TimerLifecycle),
      (lc = TimerLifecycle.running ∨ lc = TimerLifecycle.paused) →
      gs.reset = true → st.autoreset_lockout = false → settings.reset = true →
      update_loop settings st lc (some gs) =
        some ((running_tick_rest settings AutoSplitterState.defaultState gs).1,
          TimerCommand.reset ::
            (running_tick_rest settings AutoSplitterState.defaultState gs).2) := by
  decide

/-- Witness for `C1_reset_resets_then_continues` at a concrete input. -/
theorem C1_witness :
    ({ start := false, reset := true, split := false, completed := false,
       is_loading := none } : GameAdapter).reset = true ∧
    update_loop { start := true, split := true, reset := true }
      AutoSplitterState.defaultState TimerLifecycle.running
      (some { start := false, reset := true, split := false, completed := false,
              is_loading := none }) =
      some ((running_tick_rest { start := true, split := true, reset := true }
            AutoSplitterState.defaultState
            { start := false, reset := true, split := false, completed := false,
              is_loading := none }).1,
        TimerCommand.reset ::
          (running_tick_rest { start := true, split := true, reset := true }
            AutoSplitterState.defaultState
            { start := false, reset := true, split := false, completed := false,
              is_loading := none }).2) :=
  ⟨rfl, C1_reset_resets_then_continues _ _ _ _ (Or.inl rfl) rfl rfl rfl⟩

/-- Claim C2 (counterexample): lifecycle Running, not switching, no reset
this tick, completion true — but the adapter also reports its start condition
this tick, so the handoff-completion step clears `switching_games` again
within the same tick: afterwards `switching_games = false`, contradicting the
claim's unconditional `switchingGames == true`. -/
theorem C2_cex :
    (update_loop { start := true, split := true, reset := true }
        AutoSplitterState.defaultState TimerLifecycle.running
        (some { start := true, reset := false, split := false, completed := true,
                is_loading := none })).map
      (fun p => (p.2.count TimerCommand.split, p.1.autoreset_lockout,
        p.1.switching_games)) = some (1, true, false) := by
  decide

/-- Claim C2 (amended): for every tick with an adapter attached, lifecycle
Running or Paused, `switching_games` false and no reset commanded in the same
tick, if the completion condition holds then exactly one split command is
emitted regardless of the split setting, and afterwards the lockout is armed
and `switching_games` is true UNLESS the adapter also reports its start
condition in the same tick (the handoff-completion step then clears it before
the tick ends). -/
theorem C2_completion_always_splits :
    ∀ (settings : AutoSplitterSettings) (st : AutoSplitterState)
      (gs : GameAdapter) (lc : TimerLifecycle),
      (lc = TimerLifecycle.running ∨ lc = TimerLifecycle.paused) →
      st.switching_games = false →
      (should_reset st gs && settings.reset) = false →
      gs.completed = true →
      (update_loop settings st lc (some gs)).map
        (fun p => (p.2.count TimerCommand.split, p.1.autoreset_lockout,
          p.1.switching_games)) = some (1, true, !gs.start) := by
  decide

/-- Witness for `C2_completion_always_splits` at a concrete input (splitting
disabled in the settings, start condition false). -/
theorem C2_witness :
    (update_loop { start := true, split := false, reset := true }
        AutoSplitterState.defaultState TimerLifecycle.running
        (some { start := false, reset := false, split := false, completed := true,
                is_loading := none })).map
      (fun p => (p.2.count TimerCommand.split, p.1.autoreset_lockout,
        p.1.switching_games)) = some (1, true,
          !({ start := false, reset := false, split := false, completed := true,
              is_loading := none } : GameAdapter).start) :=
  C2_completion_always_splits _ _ _ _ (Or.inl rfl) rfl rfl rfl

/-- Claim C3 (counterexample): a tick at an unrecognized lifecycle with NO
adapter attached does not signal the fatal condition — it returns normally,
as a no-op. -/
theorem C3_cex :
    update_loop { start := true, split := true, reset := true }
      AutoSplitterState.defaultState TimerLifecycle.unrecognized none =
      some (AutoSplitterState.defaultState, []) := by
  decide

/-- Claim C3 (amended): for every lifecycle value outside the five handled
states, a tick with an adapter attached signals the fatal unhandled-lifecycle
condition (modelled as `none`); a tick with no adapter attached returns
normally, emitting no command and leaving the runtime state unchanged. -/
theorem C3_unhandled_lifecycle :
    ∀ (settings : AutoSplitterSettings) (st : AutoSplitterState)
      (gs : GameAdapter),
      update_loop settings st TimerLifecycle.unrecognized (some gs) = none ∧
      update_loop settings st TimerLifecycle.unrecognized none = some (st, []) := by
  decide

/-- Claim C5: the autoreset lockout is a one-way latch armed by the split
CONDITION itself.  First part: on any Running/Paused tick where the adapter
reports the split condition (not switching, not completed, no reset this
tick), the lockout is armed even when splitting is disabled, and a split
command is emitted exactly when splitting is allowed.  Second part: once the
lockout is armed, no later tick emits a reset command until the runtime
state is reset to defaults. -/
theorem C5_lockout_latch :
    (∀ (settings : AutoSplitterSettings) (st : AutoSplitterState)
      (gs : GameAdapter) (lc : TimerLifecycle),
      (lc = TimerLifecycle.running ∨ lc = TimerLifecycle.paused) →
      st.switching_games = false → gs.completed = false → gs.split = true →
      (should_reset st gs && settings.reset) = false →
      (update_loop settings st lc (some gs)).map
        (fun p => (p.1.autoreset_lockout, p.2.count TimerCommand.split)) =
        some (true, if settings.split then 1 else 0)) ∧
    (∀ (st : AutoSplitterState) (inputs : List TickInput),
      st.autoreset_lockout = true → noResetUntilDefault st inputs) :=
  ⟨by decide, fun st inputs h => noReset_of_lockout inputs st h⟩

/-- Witness for `C5_lockout_latch`: first part at a concrete tick with
splitting disabled (lockout armed, no split emitted); second part on a
concrete armed state against a tick whose adapter reports the reset
condition with resets allowed. -/
theorem C5_witness :
    (update_loop { start := true, split := false, reset := true }
        AutoSplitterState.defaultState TimerLifecycle.running
        (some { start := false, reset := false, split := true, completed := false,
                is_loading := none })).map
      (fun p => (p.1.autoreset_lockout, p.2.count TimerCommand.split)) =
      some (true,
        if ({ start := true, split := false, reset := true } :
            AutoSplitterSettings).split then 1 else 0) ∧
    noResetUntilDefault
      { switching_games := false, autoreset_lockout := true, was_loading := false }
      [{ settings := { start := true, split := true, reset := true },
         lifecycle := TimerLifecycle.running,
         adapter := some (GameAdapter.mk false true false false none) }] :=
  ⟨C5_lockout_latch.1 _ _ _ _ (Or.inl rfl) rfl rfl rfl rfl,
   C5_lockout_latch.2 _ _ rfl⟩

/-- Claim C6: with an adapter attached and lifecycle NotRunning, a tick on
which the start condition holds resets the runtime state to defaults
unconditionally and, exactly when starting is allowed, emits one start
command followed by one game-time-baseline-to-zero command; a tick on which
the start condition does not hold emits nothing and leaves the state
unchanged. -/
theorem C6_start_check :
    ∀ (settings : AutoSplitterSettings) (st : AutoSplitterState)
      (gs : GameAdapter),
      (gs.start = true →
        update_loop settings st TimerLifecycle.notRunning (some gs) =
          some (AutoSplitterState.defaultState,
            if settings.start then
              [TimerCommand.start, TimerCommand.setGameTimeZero]
            else [])) ∧
      (gs.start = false →
        update_loop settings st TimerLifecycle.notRunning (some gs) =
          some (st, [])) := by
  decide

/-- Witness for `C6_start_check`: a start-condition tick from a fully
non-default state with starting allowed. -/
theorem C6_witness :
    update_loop { start := true, split := true, reset := true }
      { switching_games := true, autoreset_lockout := true, was_loading := true }
      TimerLifecycle.notRunning
      (some { start := true, reset := false, split := false, completed := false,
              is_loading := none }) =
      some (AutoSplitterState.defaultState,
        if ({ start := true, split := true, reset := true } :
            AutoSplitterSettings).start then
          [TimerCommand.start, TimerCommand.setGameTimeZero]
        else []) :=
  (C6_start_check _ _ _).1 rfl

set_option synthInstance.maxSize 4000 in
/-- Claim C9: with no adapter attached, a Running/Paused tick that is
mid-handoff and not yet marked loading emits exactly one freeze-game-time
command and marks loading; every other no-adapter case leaves the state
unchanged and emits nothing, except lifecycle Ended, which resets the
runtime state to defaults. -/
theorem C9_no_adapter_handoff_freeze :
    ∀ (settings : AutoSplitterSettings) (st : AutoSplitterState)
      (lc : TimerLifecycle),
      ((lc = TimerLifecycle.running ∨ lc = TimerLifecycle.paused) →
        st.switching_games = true → st.was_loading = false →
        update_loop settings st lc none =
          some ({ st with was_loading := true }, [TimerCommand.pauseGameTime])) ∧
      ((lc = TimerLifecycle.running ∨ lc = TimerLifecycle.paused) →
        ¬(st.switching_games = true ∧ st.was_loading = false) →
        update_loop settings st lc none = some (st, [])) ∧
      (update_loop settings st TimerLifecycle.ended none =
        some (AutoSplitterState.defaultState, [])) ∧
      ((lc = TimerLifecycle.notRunning ∨ lc = TimerLifecycle.unknown ∨
          lc = TimerLifecycle.unrecognized) →
        update_loop settings st lc none = some (st, [])) := by
  decide

/-- Witness for `C9_no_adapter_handoff_freeze`: the mid-handoff freeze case
at a concrete input. -/
theorem C9_witness :
    update_loop { start := true, split := true, reset := true }
      { switching_games := true, autoreset_lockout := true, was_loading := false }
      TimerLifecycle.running none =
      some ({ switching_games := true, autoreset_lockout := true,
              was_loading := true }, [TimerCommand.pauseGameTime]) :=
  (C9_no_adapter_handoff_freeze _ _ _).1 (Or.inl rfl) rfl rfl

/-- Claim C4: the version resolver returns the bound pointer chains of the
first profile in table order whose signature check passes against live
memory, trying no later profile; when no profile's check passes — including
when every signature read fails — it returns absent.  Stated for an
arbitrary profile table, and tied to the fixed resolver over the real
version table by the last conjunct. -/
theorem C4_resolver_first_match (mem : Mem) (module_offset : Nat) :
    (∀ (table : List GameVersionData) (i : Nat) (h : i < table.length),
      check_build_string mem module_offset (table.get ⟨i, h⟩).build_string = true →
      (∀ (j : Nat) (hj : j < i),
        check_build_string mem module_offset
          (table.get ⟨j, Nat.lt_trans hj h⟩).build_string = false) →
      find_gamevar_pointers_go mem module_offset table =
        some (bindGameVars module_offset (table.get ⟨i, h⟩))) ∧
    (∀ table : List GameVersionData,
      (∀ gv ∈ table, check_build_string mem module_offset gv.build_string = false) →
      find_gamevar_pointers_go mem module_offset table = none) ∧
    find_gamevar_pointers mem module_offset =
      find_gamevar_pointers_go mem module_offset VERSION_DATA :=
  ⟨find_go_first mem module_offset, find_go_none mem module_offset, rfl⟩

/-- Witness for `C4_resolver_first_match`: memory holding only the v1.0.4
build string makes the first profile's check fail and resolves to the second
profile's bound chains. -/
theorem C4_witness :
    check_build_string memOnly104 0 versionData_1_0_3.build_string = false ∧
    check_build_string memOnly104 0 versionData_1_0_4.build_string = true ∧
    find_gamevar_pointers memOnly104 0 = some (bindGameVars 0 versionData_1_0_4) := by
  have h := C4_resolver_first_match memOnly104 0
  refine ⟨by decide, by decide, ?_⟩
  rw [h.2.2]
  exact h.1 VERSION_DATA 1 (by decide) (by decide)
    (fun j hj => by
      have hj0 : j = 0 := by omega
      subst hj0
      exact (by decide :
        check_build_string memOnly104 0 versionData_1_0_3.build_string = false))

/-- Claim C7: for every Edge-Detecting Sample and any values v and w, after
update(some v), update(none), update(some w) the pair is re-established with
previous = latest = w, so the first comparison after the gap reports
unchanged. -/
theorem C7_gap_recovery {T : Type} [DecidableEq T] (s : Sample T) (v w : T) :
    (((s.update (some v)).update none).update (some w)).previous = some w ∧
    (((s.update (some v)).update none).update (some w)).latest = some w ∧
    (((s.update (some v)).update none).update (some w)).changed = false := by
  obtain ⟨p, l⟩ := s
  cases p <;> cases l <;> simp [Sample.update, Sample.changed]

/-- Witness for `C7_gap_recovery`: the 5, gap, 5 scenario reports
unchanged. -/
theorem C7_witness :
    ((((Sample.mk none none : Sample Int).update (some 5)).update none).update
      (some 5)).changed = false :=
  (C7_gap_recovery (Sample.mk none none) 5 5).2.2

/-- Claim C8 (counterexample): a memory in which every byte of the v1.0.3
signature (63 bytes) is mapped and equal to the signature, but the byte right
after it is unmapped.  Reading exactly the signature's length succeeds and
returns the signature itself — the claim's reading of the check would match —
yet `check_build_string` reads the full 72-byte uniform buffer, the read
fails, and the profile does not match. -/
theorem C8_cex :
    readBytes memPartial103 (0 + versionData_1_0_3.build_string.address)
        (strBytes versionData_1_0_3.build_string.expected).length =
      some (strBytes versionData_1_0_3.build_string.expected) ∧
    check_build_string_specWords memPartial103 0 versionData_1_0_3.build_string
      = true ∧
    check_build_string memPartial103 0 versionData_1_0_3.build_string = false := by
  decide

/-- Claim C8 (amended): the signature check reads `strbuf_len` bytes (the
maximum signature length across the table, 72) from
`moduleBase + signatureAddress` — not `signatureBytes.length` bytes; a failed
read of that uniform buffer makes the profile not match, and on a successful
read the profile matches exactly when the first `signatureBytes.length` bytes
of the buffer equal the profile's signature byte-for-byte. -/
theorem C8_check_reads_uniform_buffer (mem : Mem) (module_offset : Nat)
    (bs : BuildString)
    (hlen : (strBytes bs.expected).length ≤ strbuf_len) :
    check_build_string mem module_offset bs = true ↔
      ∃ buf, readBytes mem (module_offset + bs.address) strbuf_len = some buf ∧
        buf.take (strBytes bs.expected).length = strBytes bs.expected := by
  unfold check_build_string
  cases e : readBytes mem (module_offset + bs.address) strbuf_len with
  | none => simp
  | some buf =>
    have hbl : buf.length = strbuf_len :=
      readBytes_length mem strbuf_len (module_offset + bs.address) buf e
    have hlt : (buf.take (strBytes bs.expected).length).length =
        (strBytes bs.expected).length := by
      rw [List.length_take, hbl]
      exact Nat.min_eq_left hlen
    show (((buf.take (strBytes bs.expected).length).zip
        (strBytes bs.expected)).all fun p => p.1 == p.2) = true ↔ _
    rw [zip_all_eq _ _ hlt]
    constructor
    · intro ht
      exact ⟨buf, rfl, ht⟩
    · rintro ⟨buf2, hb, ht⟩
      have hbb : buf = buf2 := by injection hb
      rw [hbb]
      exact ht

/-- Witness for `C8_check_reads_uniform_buffer` at the v1.0.4 profile against
the memory holding its build string. -/
theorem C8_witness :
    (strBytes versionData_1_0_4.build_string.expected).length ≤ strbuf_len ∧
    (check_build_string memOnly104 0 versionData_1_0_4.build_string = true ↔
      ∃ buf, readBytes memOnly104 (0 + versionData_1_0_4.build_string.address)
          strbuf_len = some buf ∧
        buf.take (strBytes versionData_1_0_4.build_string.expected).length =
          strBytes versionData_1_0_4.build_string.expected) :=
  ⟨by decide,
   C8_check_reads_uniform_buffer memOnly104 0 versionData_1_0_4.build_string
     (by decide)⟩

/-- Claim C10: on Linux, `platform_process_name` returns exactly the first 15
bytes of the process name, and is panic-free (modelled: returns `some`) only
for names of at least 15 bytes; every process name configured for the three
supported games is at least 15 bytes long, so `attach_any` never hits the
out-of-bounds slice. -/
theorem C10_linux_process_name :
    (∀ name : String, 15 ≤ name.length →
      platform_process_name true name = some (name.take 15)) ∧
    (∀ name : String, name.length < 15 →
      platform_process_name true name = none) ∧
    (∀ name ∈ all_target_process_names, 15 ≤ name.length) := by
  refine ⟨?_, ?_, by decide⟩
  · intro name h
    simp [platform_process_name, h]
  · intro name h
    simp [platform_process_name, Nat.not_le.mpr h]

/-- Witness for `C10_linux_process_name`: a configured name is truncated to
its first 15 bytes; a hypothetical 5-byte name would panic. -/
theorem C10_witness :
    15 ≤ ("Risk of Rain.exe" : String).length ∧
    platform_process_name true "Risk of Rain.exe" =
      some (("Risk of Rain.exe" : String).take 15) ∧
    ("a.exe" : String).length < 15 ∧
    platform_process_name true "a.exe" = none :=
  ⟨by decide, C10_linux_process_name.1 "Risk of Rain.exe" (by decide),
   by decide, C10_linux_process_name.2.1 "a.exe" (by decide)⟩

end RorAutosplitter
